import Mathlib

/-! Verification of the CleanSweep report service (server.js).

A shallow embedding of the request handlers of server.js: the reports
table is a list of rows, external effects (the Cloudinary upload and the
Gemini classification request) are oracle parameters, and each handler
becomes a function from request and store to response and store, also
returning how many external calls it made.  SQL double precision
coordinates are modelled as real numbers and timestamps as rational
epoch seconds.  A possibly-absent JS string value is an Option String:
none stands for a JS-falsy value (undefined, null or the empty string
where the code tests truthiness).
-/

namespace CleanSweep

/-- The two-field label produced by the AI triage helper. -/
structure Triage where
  category : String
  severity : String
  deriving DecidableEq

/-- Fallback label used whenever triage is skipped or fails
(server.js lines 81 and 140). -/
def fallbackTriage : Triage := { category := "Other", severity := "Medium" }

/-- JS field-or-default on a string: the code writes aiResponse.category
or-else a default (server.js 133-134), which substitutes the default for
a missing field and for the empty string, the falsy string value. -/
def jsOrElse (x : Option String) (d : String) : String :=
  match x with
  | none => d
  | some v => if v = "" then d else v

/-- Outcome of the single external Gemini request, at the level the code
inspects it (server.js 113-130): a rejected fetch, a non-ok HTTP
response, an ok response whose body cannot be navigated and parsed to a
JSON object (missing candidates path, or JSON.parse throwing), or a
parsed object with its two optional string fields. -/
inductive GeminiOutcome where
  | netError
  | httpError
  | unparseable
  | parsed (category : Option String) (severity : Option String)
  deriving DecidableEq

/-- getAITriage (server.js 78-142): with no key (or the empty, falsy
key) return the fallback label without any external call; otherwise
issue exactly one request, map every failing outcome to the fallback
inside the catch block, and on success default each falsy field
individually.  Returns the label and the number of external
classification requests issued. -/
def getAITriage (geminiKey : Option String) (outcome : GeminiOutcome) : Triage × Nat :=
  match geminiKey with
  | none => (fallbackTriage, 0)
  | some k =>
    if k = "" then (fallbackTriage, 0)
    else
      match outcome with
      | .netError => (fallbackTriage, 1)
      | .httpError => (fallbackTriage, 1)
      | .unparseable => (fallbackTriage, 1)
      | .parsed c s =>
        ({ category := jsOrElse c "Other", severity := jsOrElse s "Medium" }, 1)

/-- Category options offered in the triage prompt (server.js 93). -/
def categoryOptions : List String :=
  ["Household Waste", "Construction Debris", "Hazardous/Chemical",
   "E-Waste", "Organic/Green Waste", "Other"]

/-- Severity options offered in the triage prompt (server.js 94). -/
def severityOptions : List String := ["Small", "Medium", "Large"]

/-- The report_status SQL enum. -/
inductive Status where
  | pending
  | in_progress
  | cleaned
  deriving DecidableEq

/-- One row of the reports table (section 3 of the spec lists the
columns; the INSERT of server.js 208-213 supplies the first seven). -/
structure Report where
  id : Nat
  citizen_device_id : String
  lat : ℝ
  lng : ℝ
  description : Option String
  initial_photo_url : Option String
  category : String
  severity : String
  status : Status
  upvotes : Int
  cleanup_photo_url : Option String
  created_at : ℚ
  cleaned_at : Option ℚ

/-- The database state: the reports table plus the sequence suppling
fresh primary keys. -/
structure Store where
  reports : List Report
  nextId : Nat

/-- Modelled from the spec: the reports table schema is not part of
src/ (the INSERT of server.js 208-213 relies on column defaults for
status, upvotes, created_at and cleaned_at).  Spec section 3: status
starts pending, upvotes starts at 0, created_at is set by the store at
insert time, cleaned_at is null until cleanup. -/
def initialUpvotes : Int := 0

/-- SQL radians(): degrees to radians. -/
noncomputable def radians (x : ℝ) : ℝ := x * Real.pi / 180

/-- The distance expression of the clustering query (server.js 172-178),
with (latS, lngS) the submitted point (parameters 1 to 3) and
(latR, lngR) the row being scanned. -/
noncomputable def sphericalDistance (latS lngS latR lngR : ℝ) : ℝ :=
  6371 * Real.arccos
    (Real.cos (radians latS) * Real.cos (radians latR) *
        Real.cos (radians lngR - radians lngS) +
      Real.sin (radians latS) * Real.sin (radians latR))

open Classical in
/-- Rows of the clustering subquery surviving both WHERE clauses
(server.js 180-182): status pending and distance strictly below 0.05. -/
noncomputable def pendingWithin (lat lng : ℝ) (rows : List Report) : List Report :=
  (rows.filter fun r => r.status = Status.pending).filter
    fun r => sphericalDistance lat lng r.lat r.lng < 0.05

open Classical in
/-- ORDER BY distance LIMIT 1 (server.js 183-184): a minimum-distance
row of the candidate list, ties resolved towards the earlier row. -/
noncomputable def selectMin (lat lng : ℝ) : List Report → Option Report
  | [] => none
  | r :: rs =>
    match selectMin lat lng rs with
    | none => some r
    | some b =>
      if sphericalDistance lat lng r.lat r.lng ≤ sphericalDistance lat lng b.lat b.lng
      then some r else some b

/-- The whole clustering query of POST /api/report (server.js 170-186). -/
noncomputable def findMergeTarget (lat lng : ℝ) (rows : List Report) : Option Report :=
  selectMin lat lng (pendingWithin lat lng rows)

/-- Multipart request of POST /api/report; none models a JS-falsy
(absent or empty) field, which the handler rejects. -/
structure SubmitRequest where
  photo : Option String
  lat : Option ℝ
  lng : Option ℝ
  citizen_device_id : Option String
  description : Option String
  geminiKey : Option String

/-- Result of an upload_stream call to Cloudinary (server.js 34-47):
the secure URL, or a rejected promise. -/
inductive UploadOutcome where
  | ok (url : String)
  | failed
  deriving DecidableEq

/-- Response of POST /api/report: the 400s, the 200 merge response
carrying the re-selected row (its upvoted true marker is the merged
constructor), the 201 with the inserted row, or the catch-all 500. -/
inductive SubmitResult where
  | badRequest
  | merged (r : Report)
  | created (r : Report)
  | serverError

/-- POST /api/report (server.js 151-221).  Oracles: upl is the
Cloudinary outcome, gem the Gemini outcome, now the NOW() default used
for created_at.  Returns the response, the new store, and the number of
upload calls and of external classification requests made. -/
noncomputable def submit (req : SubmitRequest) (upl : UploadOutcome)
    (gem : GeminiOutcome) (now : ℚ) (st : Store) :
    SubmitResult × Store × Nat × Nat :=
  match req.photo with
  | none => (.badRequest, st, 0, 0)
  | some _ =>
    match req.lat, req.lng, req.citizen_device_id with
    | some lat, some lng, some dev =>
      match findMergeTarget lat lng st.reports with
      | some t =>
        let reports2 := st.reports.map fun r =>
          if r.id = t.id then { r with upvotes := r.upvotes + 1 } else r
        match reports2.find? fun r => r.id = t.id with
        | some u => (.merged u, { st with reports := reports2 }, 0, 0)
        | none =>
          -- dead branch: the target id was selected from the table, so
          -- the SELECT after the UPDATE returns the row
          (.serverError, { st with reports := reports2 }, 0, 0)
      | none =>
        match upl with
        | .failed => (.serverError, st, 1, 0)
        | .ok url =>
          let tri := getAITriage req.geminiKey gem
          let newR : Report :=
            { id := st.nextId
              citizen_device_id := dev
              lat := lat
              lng := lng
              description := req.description
              initial_photo_url := some url
              category := tri.1.category
              severity := tri.1.severity
              status := Status.pending
              upvotes := initialUpvotes
              cleanup_photo_url := none
              created_at := now
              cleaned_at := none }
          (.created newR,
            { reports := newR :: st.reports, nextId := st.nextId + 1 }, 1, tri.2)
    | _, _, _ => (.badRequest, st, 0, 0)

/-- Response shape shared by the status, cleanup and delete handlers. -/
inductive ApiResult where
  | success
  | badRequest
  | notFound
  | serverError
  deriving DecidableEq

/-- The allowed-status check of server.js 264. -/
def statusOfString (s : String) : Option Status :=
  if s = "pending" then some Status.pending
  else if s = "in_progress" then some Status.in_progress
  else if s = "cleaned" then some Status.cleaned
  else none

/-- PUT /api/report/:id/status (server.js 259-276): validate the status
string, then UPDATE the status column of the rows with that id and
nothing else; in particular cleaned_at is not touched and zero affected
rows still answer success. -/
def setStatus (id : Nat) (status : Option String) (st : Store) : ApiResult × Store :=
  match status with
  | none => (.badRequest, st)
  | some s =>
    match statusOfString s with
    | none => (.badRequest, st)
    | some v =>
      (.success,
        { st with reports := st.reports.map fun r =>
            if r.id = id then { r with status := v } else r })

/-- PUT /api/report/:id/cleanup (server.js 282-309): require a photo,
upload it (a failure falls to the catch-all 500), then set status,
cleanup_photo_url and cleaned_at = NOW() on the rows with that id; zero
affected rows still answer success.  Also returns the number of upload
calls made. -/
def cleanup (id : Nat) (photo : Option String) (upl : UploadOutcome)
    (now : ℚ) (st : Store) : ApiResult × Store × Nat :=
  match photo with
  | none => (.badRequest, st, 0)
  | some _ =>
    match upl with
    | .failed => (.serverError, st, 1)
    | .ok url =>
      (.success,
        { st with reports := st.reports.map fun r =>
            if r.id = id then
              { r with status := Status.cleaned,
                       cleanup_photo_url := some url,
                       cleaned_at := some now }
            else r },
        1)

/-- DELETE /api/report/:id (server.js 315-335): delete the rows with
that id; a zero rowCount is the 404. -/
def deleteReport (id : Nat) (st : Store) : ApiResult × Store :=
  if st.reports.any (fun r => r.id = id) then
    (.success, { st with reports := st.reports.filter fun r => r.id ≠ id })
  else (.notFound, st)

/-- Insertion into a list kept in descending created_at order. -/
def insertByCreatedDesc (r : Report) : List Report → List Report
  | [] => [r]
  | x :: xs =>
    if x.created_at ≤ r.created_at then r :: x :: xs
    else x :: insertByCreatedDesc r xs

/-- GET /api/reports (server.js 227-235): every row, created_at
descending. -/
def listAll (st : Store) : List Report :=
  st.reports.foldr insertByCreatedDesc []

/-- The rows averaged by the stats KPI query (server.js 345-351): the
CASE yields epoch seconds of cleaned_at minus created_at over 3600 for
rows with status cleaned and NULL otherwise, and AVG skips the NULLs; a
cleaned row with a NULL cleaned_at also yields NULL. -/
def cleanupHours (rows : List Report) : List ℚ :=
  rows.filterMap fun r =>
    if r.status = Status.cleaned then
      r.cleaned_at.map fun t => (t - r.created_at) / 3600
    else none

/-- toFixed(1) (server.js 380): round to one decimal, ties to the larger
candidate, as ECMAScript prescribes. -/
def round1 (q : ℚ) : ℚ := ((round (q * 10) : ℤ) : ℚ) / 10

/-- The avg_cleanup_time_hours field of GET /api/stats (server.js
345-353 and 380): the AVG over the non-null rows formatted with
toFixed(1), with a NULL average (no cleaned row) rendered as 0. -/
def avgCleanupTimeHours (rows : List Report) : ℚ :=
  if cleanupHours rows = [] then 0
  else round1 ((cleanupHours rows).sum / ((cleanupHours rows).length : ℚ))

/-- Spec section 3 invariant: cleaned_at is non-null iff the status is
cleaned. -/
def cleanedAtInvariant (rows : List Report) : Prop :=
  ∀ r ∈ rows, (r.cleaned_at ≠ none ↔ r.status = Status.cleaned)

/-- Written from the spec words of section 4.1, to be compared with the
query's expression: the textbook spherical law of cosines great-circle
distance in kilometers with Earth radius 6371 km. -/
noncomputable def specGreatCircleKm (lat1 lng1 lat2 lng2 : ℝ) : ℝ :=
  6371 * Real.arccos
    (Real.sin (radians lat1) * Real.sin (radians lat2) +
      Real.cos (radians lat1) * Real.cos (radians lat2) *
        Real.cos (radians lng1 - radians lng2))

/-- Concrete pending report at the origin, for the C1 witness. -/
def c1Report : Report :=
  { id := 1, citizen_device_id := "dev-a", lat := 0, lng := 0,
    description := none, initial_photo_url := some "url-a",
    category := "Other", severity := "Medium", status := Status.pending,
    upvotes := 3, cleanup_photo_url := none, created_at := 0,
    cleaned_at := none }

/-- One-row store for the C1 witness. -/
def c1Store : Store := { reports := [c1Report], nextId := 2 }

/-- Concrete pending report, cleaned_at null, for the C3 counterexample. -/
def c3Report : Report :=
  { id := 1, citizen_device_id := "dev-e", lat := 0, lng := 0,
    description := none, initial_photo_url := some "url-c",
    category := "Other", severity := "Medium", status := Status.pending,
    upvotes := 0, cleanup_photo_url := none, created_at := 0,
    cleaned_at := none }

/-- One-row store for the C3 counterexample. -/
def c3Store : Store := { reports := [c3Report], nextId := 2 }

/-- Report cleaned exactly two hours (7200 epoch seconds) after
creation, for the C7 fixed-point check. -/
def c7Report : Report :=
  { id := 4, citizen_device_id := "dev-f", lat := 1, lng := 2,
    description := none, initial_photo_url := some "url-d",
    category := "Other", severity := "Medium", status := Status.cleaned,
    upvotes := 0, cleanup_photo_url := some "url-e", created_at := 100,
    cleaned_at := some 7300 }

/-- Concrete report with id 1 for the C8 witness. -/
def c8Report : Report :=
  { id := 1, citizen_device_id := "dev-g", lat := 3, lng := 4,
    description := none, initial_photo_url := some "url-f",
    category := "Other", severity := "Medium", status := Status.pending,
    upvotes := 0, cleanup_photo_url := none, created_at := 9,
    cleaned_at := none }

/-- One-row store for the C8 witness. -/
def c8Store : Store := { reports := [c8Report], nextId := 2 }

/-! Helper lemmas shared by the claim theorems. -/

lemma sphericalDistance_self (lat lng : ℝ) : sphericalDistance lat lng lat lng = 0 := by
  unfold sphericalDistance
  have h : Real.cos (radians lat) * Real.cos (radians lat) *
      Real.cos (radians lng - radians lng) +
      Real.sin (radians lat) * Real.sin (radians lat) = 1 := by
    rw [sub_self, Real.cos_zero, mul_one]
    have hs := Real.sin_sq_add_cos_sq (radians lat)
    nlinarith [hs]
  rw [h, Real.arccos_one, mul_zero]

lemma sphericalDistance_comm (a b c d : ℝ) :
    sphericalDistance a b c d = sphericalDistance c d a b := by
  unfold sphericalDistance
  have hcos : Real.cos (radians d - radians b) = Real.cos (radians b - radians d) := by
    rw [show radians d - radians b = -(radians b - radians d) by ring, Real.cos_neg]
  rw [hcos]
  ring_nf

lemma mem_pendingWithin {lat lng : ℝ} {rows : List Report} {r : Report} :
    r ∈ pendingWithin lat lng rows ↔
      r ∈ rows ∧ r.status = Status.pending ∧
        sphericalDistance lat lng r.lat r.lng < 0.05 := by
  unfold pendingWithin
  simp only [List.mem_filter, decide_eq_true_eq]
  tauto

lemma selectMin_eq_none {lat lng : ℝ} {rows : List Report} :
    selectMin lat lng rows = none ↔ rows = [] := by
  cases rows with
  | nil => simp [selectMin]
  | cons r rs =>
    simp only [selectMin]
    cases h : selectMin lat lng rs with
    | none => simp
    | some b =>
      constructor
      · intro hc
        by_cases hle : sphericalDistance lat lng r.lat r.lng ≤
            sphericalDistance lat lng b.lat b.lng
        · simp [hle] at hc
        · simp [hle] at hc
      · intro hc; exact absurd hc (by simp)

lemma selectMin_mem {lat lng : ℝ} {rows : List Report} {t : Report}
    (h : selectMin lat lng rows = some t) : t ∈ rows := by
  induction rows with
  | nil => simp [selectMin] at h
  | cons r rs ih =>
    simp only [selectMin] at h
    cases hrec : selectMin lat lng rs with
    | none =>
      rw [hrec] at h
      simp only [Option.some.injEq] at h
      simp [h]
    | some b =>
      rw [hrec] at h
      by_cases hle : sphericalDistance lat lng r.lat r.lng ≤
          sphericalDistance lat lng b.lat b.lng
      · simp only [hle, if_true, Option.some.injEq] at h
        simp [h]
      · simp only [hle, if_false, Option.some.injEq] at h
        subst h
        exact List.mem_cons_of_mem _ (ih hrec)

lemma selectMin_min {lat lng : ℝ} {rows : List Report} :
    ∀ {t : Report}, selectMin lat lng rows = some t →
    ∀ r ∈ rows, sphericalDistance lat lng t.lat t.lng ≤
      sphericalDistance lat lng r.lat r.lng := by
  induction rows with
  | nil => intro t h; simp [selectMin] at h
  | cons r rs ih =>
    intro t h
    simp only [selectMin] at h
    cases hrec : selectMin lat lng rs with
    | none =>
      rw [hrec] at h
      simp only [Option.some.injEq] at h
      subst h
      have hnil : rs = [] := selectMin_eq_none.mp hrec
      subst hnil
      intro x hx
      simp only [List.mem_singleton] at hx
      subst hx
      exact le_refl _
    | some b =>
      rw [hrec] at h
      by_cases hle : sphericalDistance lat lng r.lat r.lng ≤
          sphericalDistance lat lng b.lat b.lng
      · simp only [hle, if_true, Option.some.injEq] at h
        subst h
        intro x hx
        rcases List.mem_cons.mp hx with hx | hx
        · subst hx; exact le_refl _
        · exact le_trans hle (ih hrec x hx)
      · simp only [hle, if_false, Option.some.injEq] at h
        subst h
        intro x hx
        rcases List.mem_cons.mp hx with hx | hx
        · subst hx; exact le_of_lt (lt_of_not_le hle)
        · exact ih hrec x hx

lemma findMergeTarget_eq_none {lat lng : ℝ} {rows : List Report}
    (h : ∀ r ∈ rows, r.status = Status.pending →
      ¬ sphericalDistance lat lng r.lat r.lng < 0.05) :
    findMergeTarget lat lng rows = none := by
  unfold findMergeTarget
  rw [selectMin_eq_none, List.eq_nil_iff_forall_not_mem]
  intro r hr
  rcases mem_pendingWithin.mp hr with ⟨hmem, hpend, hdist⟩
  exact h r hmem hpend hdist

lemma find_map_bump {rows : List Report} {t : Report}
    (hnd : (rows.map Report.id).Nodup) (ht : t ∈ rows) :
    ((rows.map fun r =>
        if r.id = t.id then { r with upvotes := r.upvotes + 1 } else r).find?
      fun r => r.id = t.id) =
      some { t with upvotes := t.upvotes + 1 } := by
  induction rows with
  | nil => simp at ht
  | cons r rs ih =>
    simp only [List.map_cons, List.nodup_cons] at hnd ⊢
    by_cases hid : r.id = t.id
    · have hrt : r = t := by
        rcases List.mem_cons.mp ht with h | h
        · exact h.symm
        · exfalso
          exact hnd.1 (hid ▸ List.mem_map_of_mem Report.id h)
      subst hrt
      rw [if_pos hid]
      exact List.find?_cons_of_pos _ (by simp)
    · rw [if_neg hid]
      rw [List.find?_cons_of_neg _ (by simp [hid])]
      have ht2 : t ∈ rs := by
        rcases List.mem_cons.mp ht with h | h
        · exact absurd (h ▸ rfl) hid
        · exact h
      exact ih hnd.2 ht2

lemma map_update_id (f : Report → Report) (i : Nat) :
    ∀ rows : List Report, (∀ r ∈ rows, r.id ≠ i) →
      (rows.map fun r => if r.id = i then f r else r) = rows := by
  intro rows
  induction rows with
  | nil => intro _; rfl
  | cons r rs ih =>
    intro h
    simp only [List.map_cons, ih fun x hx => h x (List.mem_cons_of_mem _ hx)]
    rw [if_neg (h r (List.mem_cons_self r rs))]

lemma mem_insertByCreatedDesc {a r : Report} :
    ∀ {l : List Report}, a ∈ insertByCreatedDesc r l ↔ a = r ∨ a ∈ l := by
  intro l
  induction l with
  | nil => simp [insertByCreatedDesc]
  | cons x xs ih =>
    simp only [insertByCreatedDesc]
    by_cases hle : x.created_at ≤ r.created_at
    · rw [if_pos hle]; simp
    · rw [if_neg hle]
      simp only [List.mem_cons, ih]
      tauto

lemma mem_listAll {a : Report} {st : Store} : a ∈ listAll st ↔ a ∈ st.reports := by
  unfold listAll
  induction st.reports with
  | nil => simp
  | cons x xs ih =>
    simp only [List.foldr_cons, mem_insertByCreatedDesc, ih, List.mem_cons]

lemma cleanupHours_eq (rows : List Report)
    (h : ∀ r ∈ rows, r.status = Status.cleaned → r.cleaned_at ≠ none) :
    cleanupHours rows = (rows.filter fun r => r.status = Status.cleaned).map
      fun r => (r.cleaned_at.getD 0 - r.created_at) / 3600 := by
  induction rows with
  | nil => rfl
  | cons r rs ih =>
    have ihv := ih fun x hx => h x (List.mem_cons_of_mem _ hx)
    by_cases hs : r.status = Status.cleaned
    · cases hc : r.cleaned_at with
      | none => exact absurd hc (h r (List.mem_cons_self r rs) hs)
      | some t =>
        simp only [cleanupHours, List.filterMap_cons, List.filter_cons] at ihv ⊢
        simp [hs, hc, ihv]
    · simp only [cleanupHours, List.filterMap_cons, List.filter_cons] at ihv ⊢
      simp [hs, ihv]

lemma cleanedAtInvariant_map {rows : List Report} (hinv : cleanedAtInvariant rows)
    (f : Report → Report)
    (hf : ∀ r, (r.cleaned_at ≠ none ↔ r.status = Status.cleaned) →
        ((f r).cleaned_at ≠ none ↔ (f r).status = Status.cleaned)) :
    cleanedAtInvariant (rows.map f) := by
  intro r hr
  rcases List.mem_map.mp hr with ⟨x, hx, hfx⟩
  exact hfx ▸ hf x (hinv x hx)

lemma deleteReport_absent {i : Nat} {st : Store}
    (h : ∀ r ∈ st.reports, r.id ≠ i) :
    deleteReport i st = (ApiResult.notFound, st) := by
  have hc : ¬ (st.reports.any fun r => r.id = i) = true := by
    rw [List.any_eq_true]
    rintro ⟨r, hr, hid⟩
    exact h r hr (by simpa using hid)
  unfold deleteReport
  rw [if_neg hc]

/-! The claim theorems. -/

/-- Claim C10: the clustering query's distance expression is exactly the
spherical law of cosines great-circle distance in kilometers with Earth
radius 6371 km, and on valid in-range coordinates it is zero between a
point and itself and symmetric in its two points. -/
theorem c10_distance_spec (lat1 lng1 lat2 lng2 : ℝ)
    (h1 : -90 ≤ lat1 ∧ lat1 ≤ 90) (h2 : -180 ≤ lng1 ∧ lng1 ≤ 180)
    (h3 : -90 ≤ lat2 ∧ lat2 ≤ 90) (h4 : -180 ≤ lng2 ∧ lng2 ≤ 180) :
    sphericalDistance lat1 lng1 lat2 lng2 = specGreatCircleKm lat1 lng1 lat2 lng2 ∧
    sphericalDistance lat1 lng1 lat1 lng1 = 0 ∧
    sphericalDistance lat1 lng1 lat2 lng2 = sphericalDistance lat2 lng2 lat1 lng1 := by
  refine ⟨?_, sphericalDistance_self lat1 lng1, sphericalDistance_comm lat1 lng1 lat2 lng2⟩
  unfold sphericalDistance specGreatCircleKm
  have hcos : Real.cos (radians lng2 - radians lng1) =
      Real.cos (radians lng1 - radians lng2) := by
    rw [show radians lng2 - radians lng1 = -(radians lng1 - radians lng2) by ring,
      Real.cos_neg]
  rw [hcos]
  ring_nf

/-- Witness for C10 at the concrete points (10, 20) and (30, 40). -/
theorem c10_distance_spec_witness :
    sphericalDistance 10 20 30 40 = specGreatCircleKm 10 20 30 40 ∧
    sphericalDistance 10 20 10 20 = 0 ∧
    sphericalDistance 10 20 30 40 = sphericalDistance 30 40 10 20 :=
  c10_distance_spec 10 20 30 40 (by norm_num) (by norm_num) (by norm_num) (by norm_num)

/-- Claim C4: the triage helper never propagates a failure.  With an
absent (or empty, hence falsy) key it returns the fallback label and
makes zero external calls; with a key present, each of the failing
outcomes - rejected fetch, non-ok response, unnavigable or unparseable
body - is caught and mapped to the fallback label. -/
theorem c4_triage_never_fails (k : String) (hk : k ≠ "") (failure : GeminiOutcome)
    (hf : failure = GeminiOutcome.netError ∨ failure = GeminiOutcome.httpError ∨
      failure = GeminiOutcome.unparseable) :
    (∀ o : GeminiOutcome, getAITriage none o = (fallbackTriage, 0)) ∧
    (∀ o : GeminiOutcome, getAITriage (some "") o = (fallbackTriage, 0)) ∧
    getAITriage (some k) failure = (fallbackTriage, 1) := by
  refine ⟨fun o => rfl, fun o => rfl, ?_⟩
  rcases hf with h | h | h <;> subst h <;> simp [getAITriage, hk]

/-- Witness for C4 with a concrete key and a rejected fetch. -/
theorem c4_triage_never_fails_witness :
    (∀ o : GeminiOutcome, getAITriage none o = (fallbackTriage, 0)) ∧
    (∀ o : GeminiOutcome, getAITriage (some "") o = (fallbackTriage, 0)) ∧
    getAITriage (some "key-a") GeminiOutcome.netError = (fallbackTriage, 1) :=
  c4_triage_never_fails "key-a" (by decide) GeminiOutcome.netError (Or.inl rfl)

/-- Claim C5 is false on the code: field values are only defaulted when
falsy (missing or empty), never validated against the enumerations, so a
successfully parsed out-of-enum pair is returned verbatim. -/
theorem c5_counterexample :
    (getAITriage (some "key-b")
        (GeminiOutcome.parsed (some "Banana") (some "Huge"))).1 =
      { category := "Banana", severity := "Huge" } ∧
    "Banana" ∉ categoryOptions ∧ "Huge" ∉ severityOptions :=
  ⟨rfl, by decide, by decide⟩

/-- Claim C5 as amended: on a successful parse each of the two fields
independently falls back to Other / Medium exactly when it is missing or
empty, and any present non-empty value - inside the enumeration or not -
is returned verbatim, with no enum membership check. -/
theorem c5_success_fields (k : String) (hk : k ≠ "") (c s : Option String) :
    ((c = none ∨ c = some "") →
      (getAITriage (some k) (GeminiOutcome.parsed c s)).1.category = "Other") ∧
    (∀ v, v ≠ "" → c = some v →
      (getAITriage (some k) (GeminiOutcome.parsed c s)).1.category = v) ∧
    ((s = none ∨ s = some "") →
      (getAITriage (some k) (GeminiOutcome.parsed c s)).1.severity = "Medium") ∧
    (∀ v, v ≠ "" → s = some v →
      (getAITriage (some k) (GeminiOutcome.parsed c s)).1.severity = v) := by
  simp only [getAITriage, if_neg hk]
  refine ⟨?_, ?_, ?_, ?_⟩
  · rintro (h | h) <;> subst h <;> simp [jsOrElse]
  · rintro v hv rfl
    simp [jsOrElse, hv]
  · rintro (h | h) <;> subst h <;> simp [jsOrElse]
  · rintro v hv rfl
    simp [jsOrElse, hv]

/-- Witness for the amended C5: one out-of-enum category value kept
verbatim and one missing severity falling back. -/
theorem c5_success_fields_witness :
    ((some "Rubble" = none ∨ some "Rubble" = some "") →
      (getAITriage (some "key-c")
        (GeminiOutcome.parsed (some "Rubble") none)).1.category = "Other") ∧
    (∀ v, v ≠ "" → some "Rubble" = some v →
      (getAITriage (some "key-c")
        (GeminiOutcome.parsed (some "Rubble") none)).1.category = v) ∧
    ((none = (none : Option String) ∨ (none : Option String) = some "") →
      (getAITriage (some "key-c")
        (GeminiOutcome.parsed (some "Rubble") none)).1.severity = "Medium") ∧
    (∀ v, v ≠ "" → (none : Option String) = some v →
      (getAITriage (some "key-c")
        (GeminiOutcome.parsed (some "Rubble") none)).1.severity = v) :=
  c5_success_fields "key-c" (by decide) (some "Rubble") none

/-- Claim C1: a valid submission strictly within 0.05 km of some pending
report is merged: a minimum-distance pending report is upvoted by
exactly one, no row is inserted, the re-read upvoted row is returned as
the 200 merge response, and neither the upload nor the classification
call happens.  The target satisfies status pending, so in_progress and
cleaned rows are never merge targets. -/
theorem c1_submit_merges (photo dev : String) (lat lng : ℝ)
    (desc key : Option String) (upl : UploadOutcome) (gem : GeminiOutcome)
    (now : ℚ) (st : Store)
    (hnd : (st.reports.map Report.id).Nodup)
    (hnear : ∃ r ∈ st.reports, r.status = Status.pending ∧
      sphericalDistance lat lng r.lat r.lng < 0.05) :
    ∃ t ∈ st.reports, t.status = Status.pending ∧
      sphericalDistance lat lng t.lat t.lng < 0.05 ∧
      (∀ r ∈ st.reports, r.status = Status.pending →
        sphericalDistance lat lng t.lat t.lng ≤
          sphericalDistance lat lng r.lat r.lng) ∧
      submit ⟨some photo, some lat, some lng, some dev, desc, key⟩
          upl gem now st =
        (SubmitResult.merged { t with upvotes := t.upvotes + 1 },
          { st with reports := st.reports.map fun r =>
              if r.id = t.id then { r with upvotes := r.upvotes + 1 } else r },
          0, 0) := by
  obtain ⟨r0, hr0, hp0, hd0⟩ := hnear
  have hr0w : r0 ∈ pendingWithin lat lng st.reports :=
    mem_pendingWithin.mpr ⟨hr0, hp0, hd0⟩
  obtain ⟨t, ht⟩ : ∃ t, selectMin lat lng (pendingWithin lat lng st.reports) = some t := by
    cases h : selectMin lat lng (pendingWithin lat lng st.reports) with
    | none =>
      rw [selectMin_eq_none] at h
      rw [h] at hr0w
      exact absurd hr0w (List.not_mem_nil r0)
    | some t => exact ⟨t, rfl⟩
  have htw := selectMin_mem ht
  obtain ⟨htmem, htpend, htdist⟩ := mem_pendingWithin.mp htw
  have hmin : ∀ r ∈ st.reports, r.status = Status.pending →
      sphericalDistance lat lng t.lat t.lng ≤
        sphericalDistance lat lng r.lat r.lng := by
    intro r hr hp
    by_cases hd : sphericalDistance lat lng r.lat r.lng < 0.05
    · exact selectMin_min ht r (mem_pendingWithin.mpr ⟨hr, hp, hd⟩)
    · exact le_trans (le_of_lt htdist) (not_lt.mp hd)
  refine ⟨t, htmem, htpend, htdist, hmin, ?_⟩
  have htarget : findMergeTarget lat lng st.reports = some t := ht
  unfold submit
  dsimp only
  rw [htarget]
  dsimp only
  rw [find_map_bump hnd htmem]

/-- Witness for C1: a submission at the origin merges into the pending
report already recorded there. -/
theorem c1_submit_merges_witness :
    ∃ t ∈ c1Store.reports, t.status = Status.pending ∧
      sphericalDistance 0 0 t.lat t.lng < 0.05 ∧
      (∀ r ∈ c1Store.reports, r.status = Status.pending →
        sphericalDistance 0 0 t.lat t.lng ≤
          sphericalDistance 0 0 r.lat r.lng) ∧
      submit ⟨some "p1", some 0, some 0, some "dev-b", none, none⟩
          UploadOutcome.failed GeminiOutcome.netError 0 c1Store =
        (SubmitResult.merged { t with upvotes := t.upvotes + 1 },
          { c1Store with reports := c1Store.reports.map fun r =>
              if r.id = t.id then { r with upvotes := r.upvotes + 1 } else r },
          0, 0) :=
  c1_submit_merges "p1" "dev-b" 0 0 none none UploadOutcome.failed
    GeminiOutcome.netError 0 c1Store (by decide)
    ⟨c1Report, by simp [c1Store], rfl, by
      show sphericalDistance 0 0 0 0 < 0.05
      rw [sphericalDistance_self]
      norm_num⟩

/-- Claim C2: a valid submission at least 0.05 km away from every
pending report, whose upload succeeds, inserts exactly one new row -
pending, initial upvotes, submitted coordinates unchanged, created_at
from the store clock, cleaned_at null, triage fields from the adapter -
and returns it as the 201 response. -/
theorem c2_submit_creates (photo dev url : String) (lat lng : ℝ)
    (desc key : Option String) (gem : GeminiOutcome) (now : ℚ) (st : Store)
    (hfar : ∀ r ∈ st.reports, r.status = Status.pending →
      ¬ sphericalDistance lat lng r.lat r.lng < 0.05) :
    ∃ n : Report,
      submit ⟨some photo, some lat, some lng, some dev, desc, key⟩
          (UploadOutcome.ok url) gem now st =
        (SubmitResult.created n,
          { reports := n :: st.reports, nextId := st.nextId + 1 }, 1,
          (getAITriage key gem).2) ∧
      n.status = Status.pending ∧ n.upvotes = initialUpvotes ∧
      n.lat = lat ∧ n.lng = lng ∧ n.id = st.nextId ∧
      n.citizen_device_id = dev ∧ n.created_at = now ∧ n.cleaned_at = none ∧
      n.initial_photo_url = some url ∧
      n.category = (getAITriage key gem).1.category ∧
      n.severity = (getAITriage key gem).1.severity := by
  have hnone : findMergeTarget lat lng st.reports = none :=
    findMergeTarget_eq_none hfar
  refine ⟨{ id := st.nextId, citizen_device_id := dev, lat := lat, lng := lng,
            description := desc, initial_photo_url := some url,
            category := (getAITriage key gem).1.category,
            severity := (getAITriage key gem).1.severity,
            status := Status.pending, upvotes := initialUpvotes,
            cleanup_photo_url := none, created_at := now, cleaned_at := none },
          ?_, rfl, rfl, rfl, rfl, rfl, rfl, rfl, rfl, rfl, rfl, rfl⟩
  unfold submit
  dsimp only
  rw [hnone]

/-- Witness for C2: a submission against the empty store creates the
first report. -/
theorem c2_submit_creates_witness :
    ∃ n : Report,
      submit ⟨some "p2", some 12, some 34, some "dev-c", none, none⟩
          (UploadOutcome.ok "url-b") GeminiOutcome.netError 7 ⟨[], 1⟩ =
        (SubmitResult.created n, ⟨[n], 2⟩, 1, 0) ∧
      n.status = Status.pending ∧ n.upvotes = initialUpvotes ∧
      n.lat = 12 ∧ n.lng = 34 ∧ n.id = 1 ∧
      n.citizen_device_id = "dev-c" ∧ n.created_at = 7 ∧ n.cleaned_at = none ∧
      n.initial_photo_url = some "url-b" ∧
      n.category = "Other" ∧ n.severity = "Medium" :=
  c2_submit_creates "p2" "dev-c" "url-b" 12 34 none none
    GeminiOutcome.netError 7 ⟨[], 1⟩ (by intro r hr; simp at hr)

/-- Claim C6: when no pending report is strictly within 0.05 km and the
image upload fails, the request answers the catch-all 500 and the store
is unchanged - no partial row and no classification result is persisted,
and the one external call made is the upload. -/
theorem c6_upload_failure (photo dev : String) (lat lng : ℝ)
    (desc key : Option String) (gem : GeminiOutcome) (now : ℚ) (st : Store)
    (hfar : ∀ r ∈ st.reports, r.status = Status.pending →
      ¬ sphericalDistance lat lng r.lat r.lng < 0.05) :
    submit ⟨some photo, some lat, some lng, some dev, desc, key⟩
        UploadOutcome.failed gem now st =
      (SubmitResult.serverError, st, 1, 0) := by
  have hnone : findMergeTarget lat lng st.reports = none :=
    findMergeTarget_eq_none hfar
  unfold submit
  dsimp only
  rw [hnone]

/-- Witness for C6 against the empty store. -/
theorem c6_upload_failure_witness :
    submit ⟨some "p3", some 5, some 6, some "dev-d", none, none⟩
        UploadOutcome.failed GeminiOutcome.netError 0 ⟨[], 3⟩ =
      (SubmitResult.serverError, ⟨[], 3⟩, 1, 0) :=
  c6_upload_failure "p3" "dev-d" 5 6 none none GeminiOutcome.netError 0 ⟨[], 3⟩
    (by intro r hr; simp at hr)

/-- Claim C3 is false on the code: the status handler writes the status
column and nothing else, so setting a pending report to cleaned yields a
cleaned row whose cleaned_at is still null, violating the claimed
invariant from a state that satisfied it. -/
theorem c3_counterexample :
    cleanedAtInvariant c3Store.reports ∧
    setStatus 1 (some "cleaned") c3Store =
      (ApiResult.success,
        { c3Store with reports := [{ c3Report with status := Status.cleaned }] }) ∧
    ¬ cleanedAtInvariant (setStatus 1 (some "cleaned") c3Store).2.reports := by
  refine ⟨?_, rfl, ?_⟩
  · intro r hr
    rw [show c3Store.reports = [c3Report] from rfl, List.mem_singleton] at hr
    subst hr
    simp [c3Report]
  · intro h
    have hmem : ({ c3Report with status := Status.cleaned } : Report) ∈
        (setStatus 1 (some "cleaned") c3Store).2.reports := by
      rw [show (setStatus 1 (some "cleaned") c3Store).2.reports =
        [{ c3Report with status := Status.cleaned }] from rfl]
      exact List.mem_singleton.mpr rfl
    have hbad := h _ hmem
    simp [c3Report] at hbad

/-- Claim C3 as amended: the invariant that cleaned_at is non-null iff
the status is cleaned is preserved by the submission handler (both the
merge and the create branch), the cleanup handler and the delete handler
from any satisfying state; the status handler, which writes an arbitrary
valid status while leaving cleaned_at untouched, does not preserve it
(see the counterexample). -/
theorem c3_invariant_preservation (req : SubmitRequest) (upl : UploadOutcome)
    (gem : GeminiOutcome) (now : ℚ) (i : Nat) (photo : Option String)
    (st : Store) (hinv : cleanedAtInvariant st.reports) :
    cleanedAtInvariant (submit req upl gem now st).2.1.reports ∧
    cleanedAtInvariant (cleanup i photo upl now st).2.1.reports ∧
    cleanedAtInvariant (deleteReport i st).2.reports := by
  refine ⟨?_, ?_, ?_⟩
  · obtain ⟨p0, la0, ln0, d0, de0, k0⟩ := req
    cases p0 with
    | none => exact hinv
    | some pv =>
      cases la0 with
      | none => exact hinv
      | some lav =>
        cases ln0 with
        | none => exact hinv
        | some lnv =>
          cases d0 with
          | none => exact hinv
          | some dv =>
            unfold submit
            dsimp only
            cases htar : findMergeTarget lav lnv st.reports with
            | some t =>
              dsimp only
              cases hf : (st.reports.map fun r =>
                  if r.id = t.id then { r with upvotes := r.upvotes + 1 }
                  else r).find? fun r => r.id = t.id with
              | some u =>
                dsimp only
                refine cleanedAtInvariant_map hinv _ fun r hiff => ?_
                by_cases hid : r.id = t.id <;> simp [hid, hiff]
              | none =>
                dsimp only
                refine cleanedAtInvariant_map hinv _ fun r hiff => ?_
                by_cases hid : r.id = t.id <;> simp [hid, hiff]
            | none =>
              dsimp only
              cases upl with
              | failed => exact hinv
              | ok url =>
                dsimp only
                intro r hr
                rcases List.mem_cons.mp hr with hr | hr
                · subst hr; simp
                · exact hinv r hr
  · cases photo with
    | none => exact hinv
    | some pv =>
      cases upl with
      | failed => exact hinv
      | ok url =>
        have hrw : (cleanup i (some pv) (UploadOutcome.ok url) now st).2.1.reports =
            st.reports.map fun r =>
              if r.id = i then
                { r with status := Status.cleaned,
                         cleanup_photo_url := some url,
                         cleaned_at := some now }
              else r := rfl
        rw [hrw]
        refine cleanedAtInvariant_map hinv _ fun r hiff => ?_
        by_cases hid : r.id = i <;> simp [hid, hiff]
  · unfold deleteReport
    split
    · intro r hr
      exact hinv r (List.mem_of_mem_filter hr)
    · exact hinv

/-- Witness for the amended C3, on the empty store. -/
theorem c3_invariant_preservation_witness :
    cleanedAtInvariant (submit ⟨none, none, none, none, none, none⟩
      UploadOutcome.failed GeminiOutcome.netError 0 ⟨[], 9⟩).2.1.reports ∧
    cleanedAtInvariant (cleanup 0 none UploadOutcome.failed 0 ⟨[], 9⟩).2.1.reports ∧
    cleanedAtInvariant (deleteReport 0 ⟨[], 9⟩).2.reports :=
  c3_invariant_preservation ⟨none, none, none, none, none, none⟩
    UploadOutcome.failed GeminiOutcome.netError 0 0 none ⟨[], 9⟩
    (by intro r hr; simp at hr)

/-- Claim C7: when every cleaned report carries a cleaned_at timestamp,
the stats KPI equals the mean of cleaned_at minus created_at in hours
over the cleaned reports only, rounded to one decimal; it is 0 (a
number, not null) when no report is cleaned; and on a store whose only
report was cleaned exactly two hours after creation it equals 2.0. -/
theorem c7_avg_cleanup (rows : List Report)
    (hinv : ∀ r ∈ rows, r.status = Status.cleaned → r.cleaned_at ≠ none) :
    ((rows.filter fun r => r.status = Status.cleaned) = [] →
      avgCleanupTimeHours rows = 0) ∧
    ((rows.filter fun r => r.status = Status.cleaned) ≠ [] →
      avgCleanupTimeHours rows =
        round1 (((rows.filter fun r => r.status = Status.cleaned).map
            fun r => (r.cleaned_at.getD 0 - r.created_at) / 3600).sum /
          (((rows.filter fun r => r.status = Status.cleaned).length : ℚ)))) ∧
    avgCleanupTimeHours [c7Report] = 2 := by
  have he := cleanupHours_eq rows hinv
  refine ⟨?_, ?_, ?_⟩
  · intro hnil
    unfold avgCleanupTimeHours
    rw [he, hnil]
    simp
  · intro hne
    unfold avgCleanupTimeHours
    rw [he, if_neg (by simpa using hne), List.length_map]
  · have hch : cleanupHours [c7Report] = [2] := by
      simp [cleanupHours, c7Report]
      norm_num
    unfold avgCleanupTimeHours
    rw [hch]
    norm_num [round1, round_eq]

/-- Witness for C7 on the one-report two-hour store. -/
theorem c7_avg_cleanup_witness :
    (([c7Report].filter fun r => r.status = Status.cleaned) = [] →
      avgCleanupTimeHours [c7Report] = 0) ∧
    (([c7Report].filter fun r => r.status = Status.cleaned) ≠ [] →
      avgCleanupTimeHours [c7Report] =
        round1 ((([c7Report].filter fun r => r.status = Status.cleaned).map
            fun r => (r.cleaned_at.getD 0 - r.created_at) / 3600).sum /
          ((([c7Report].filter fun r => r.status = Status.cleaned).length : ℚ)))) ∧
    avgCleanupTimeHours [c7Report] = 2 :=
  c7_avg_cleanup [c7Report] (by
    intro r hr
    rw [List.mem_singleton] at hr
    subst hr
    intro _
    simp [c7Report])

/-- Claim C8: deleting an absent id answers 404 and leaves the store
unchanged; deleting a present id answers success, removes exactly the
rows with that id, the listing afterwards excludes it, and deleting the
same id a second time is a no-op answering not-found. -/
theorem c8_delete_spec (i : Nat) (st : Store) :
    ((∀ r ∈ st.reports, r.id ≠ i) →
      deleteReport i st = (ApiResult.notFound, st)) ∧
    ((∃ r ∈ st.reports, r.id = i) →
      (deleteReport i st).1 = ApiResult.success ∧
      (deleteReport i st).2.reports = st.reports.filter (fun r => r.id ≠ i) ∧
      (∀ r ∈ listAll (deleteReport i st).2, r.id ≠ i) ∧
      deleteReport i (deleteReport i st).2 =
        (ApiResult.notFound, (deleteReport i st).2)) := by
  constructor
  · exact deleteReport_absent
  · rintro ⟨r0, hr0, hid0⟩
    have hany : (st.reports.any fun r => r.id = i) = true := by
      rw [List.any_eq_true]
      exact ⟨r0, hr0, by simpa using hid0⟩
    have hdel : deleteReport i st =
        (ApiResult.success,
          { st with reports := st.reports.filter fun r => r.id ≠ i }) := by
      unfold deleteReport
      rw [if_pos hany]
    have habs : ∀ r ∈ (deleteReport i st).2.reports, r.id ≠ i := by
      rw [hdel]
      intro r hr
      simpa using List.of_mem_filter hr
    refine ⟨by rw [hdel], by rw [hdel], ?_, deleteReport_absent habs⟩
    intro r hr
    exact habs r (mem_listAll.mp hr)

/-- Witness for C8: one store, an absent id, a present id, and the
second delete. -/
theorem c8_delete_spec_witness :
    deleteReport 2 c8Store = (ApiResult.notFound, c8Store) ∧
    (deleteReport 1 c8Store).1 = ApiResult.success ∧
    (deleteReport 1 c8Store).2.reports =
      c8Store.reports.filter (fun r => r.id ≠ 1) ∧
    (∀ r ∈ listAll (deleteReport 1 c8Store).2, r.id ≠ 1) ∧
    deleteReport 1 (deleteReport 1 c8Store).2 =
      (ApiResult.notFound, (deleteReport 1 c8Store).2) := by
  have h1 := (c8_delete_spec 2 c8Store).1 (by
    intro r hr
    rw [show c8Store.reports = [c8Report] from rfl, List.mem_singleton] at hr
    subst hr
    decide)
  have h2 := (c8_delete_spec 1 c8Store).2 ⟨c8Report, by simp [c8Store], rfl⟩
  exact ⟨h1, h2.1, h2.2.1, h2.2.2.1, h2.2.2.2⟩

/-- Claim C9: for an id matching no row, a valid status update and a
cleanup carrying a photo whose upload succeeds both answer 200 success
rather than a not-found error, the store is unchanged, and the cleanup
still performs its one upload call. -/
theorem c9_missing_id (i : Nat) (s : String) (v : Status) (photo url : String)
    (now : ℚ) (st : Store)
    (habsent : ∀ r ∈ st.reports, r.id ≠ i)
    (hs : statusOfString s = some v) :
    setStatus i (some s) st = (ApiResult.success, st) ∧
    cleanup i (some photo) (UploadOutcome.ok url) now st =
      (ApiResult.success, st, 1) := by
  constructor
  · unfold setStatus
    dsimp only
    rw [hs]
    dsimp only
    rw [map_update_id _ _ _ habsent]
  · unfold cleanup
    dsimp only
    rw [map_update_id _ _ _ habsent]

/-- Witness for C9 on the empty store. -/
theorem c9_missing_id_witness :
    setStatus 6 (some "in_progress") ⟨[], 4⟩ = (ApiResult.success, ⟨[], 4⟩) ∧
    cleanup 6 (some "p4") (UploadOutcome.ok "url-g") 11 ⟨[], 4⟩ =
      (ApiResult.success, ⟨[], 4⟩, 1) :=
  c9_missing_id 6 "in_progress" Status.in_progress "p4" "url-g" 11 ⟨[], 4⟩
    (by intro r hr; simp at hr) (by decide)

end CleanSweep
